import Mathlib

/-!
Verification development for the AI-based-test-Agent repository.

The repository consists of:
* `agent.py` — the `safe_run_tests` bounded self-correction loop over four
  subprocess-backed tools (plan / generate / run / feedback);
* `api_tester.py` — the CLI workflow controller: `call_openrouter` (LLM
  completion client), `extract_code_from_response` (fenced-code extractor),
  `generate_test_code`, `generate_plan`, `run_tests`, `handle_feedback`, `main`;
* `main.py` — the FastAPI fixture with `/api/endpoint`, `/api/nonexistent`,
  `/api/error`.

External effects (subprocesses, the network, the filesystem, environment
variables) are modelled as explicit inputs: tool environments supply the
strings that subprocess calls would return, a network oracle supplies the
HTTP response of the single `requests.post`, and the filesystem is an
explicit `Option String` holding the current content of the fixed output
file `generated_tests.py`.  Call traces (which tools / network posts were
invoked, in order) are made explicit so that claims about "exactly once,
in this order" and "no network I/O" are statable.
-/

/-! ### Python string primitives

`str.lower`, `str.strip`, and the `in` substring operator, modelled on
`List Char`.  Whitespace is the ASCII whitespace set that both Python's
`str.strip` and the regex class `\s` recognise on ASCII text. -/

/-- ASCII whitespace, as stripped by Python's `str.strip` and matched by
the regex class on ASCII input: space, tab, newline, vertical tab, form
feed, carriage return. -/
def pySpace (c : Char) : Bool :=
  c = ' ' || c = '\t' || c = '\n' || c = '\x0b' || c = '\x0c' || c = '\r'

/-- Python `str.strip()` on a character list: drop ASCII whitespace from
both ends. -/
def stripL (l : List Char) : List Char :=
  ((l.dropWhile pySpace).reverse.dropWhile pySpace).reverse

/-- Python `str.strip()` on a `String`. -/
def pyStrip (s : String) : String :=
  String.mk (stripL s.data)

/-- Python `str.lower()` on a character list (ASCII case folding). -/
def pyLower (l : List Char) : List Char :=
  l.map Char.toLower

/-- Python's substring test `pat in l`: some contiguous run of `l` equals
`pat`.  Matches Python in returning `true` for the empty pattern. -/
def containsSub (pat : List Char) : List Char → Bool
  | [] => pat.isEmpty
  | c :: rest => pat.isPrefixOf (c :: rest) || containsSub pat rest

/-- Python `s.startswith(pat)`. -/
def strStartsWith (s pat : String) : Bool :=
  pat.data.isPrefixOf s.data

/-! ### `api_tester.py`: code extractor

`extract_code_from_response` runs `re.search` with the DOTALL pattern
for a triple-backtick block optionally tagged "python", lazily matching
the interior, and strips the first group; with no match it strips the
whole input.  The embedding below implements the exact semantics of that
regex search, derived as follows.  A match can only start at an
occurrence of the three-backtick fence.  After the opening fence the
optional greedy "python" group is consumed exactly when the next six
characters spell "python": backtracking over it never changes whether
the rest matches, because "python" contains no backtick, so a closing
fence exists after the tag iff one exists after the opening fence.  The
lazy interior together with the two greedy whitespace runs ends the
match at the first closing fence after that point, and since the group
is stripped afterwards the whitespace runs are absorbed by the strip.
`re.search` takes the leftmost start position admitting a full match, so
an opening fence with no closing fence after it is skipped. -/

/-- The triple-backtick fence delimiter. -/
def fenceL : List Char := ['`', '`', '`']

/-- The optional language tag accepted right after the opening fence. -/
def pythonL : List Char := ['p', 'y', 't', 'h', 'o', 'n']

/-- Split a character list at the first occurrence of the fence:
returns the part before it and the part after it, or `none` when the
list holds no fence. -/
def splitAtFence : List Char → Option (List Char × List Char)
  | [] => none
  | c :: rest =>
    if fenceL.isPrefixOf (c :: rest) then some ([], (c :: rest).drop 3)
    else
      match splitAtFence rest with
      | some (b, a) => some (c :: b, a)
      | none => none

/-- Consume the optional "python" tag after an opening fence. -/
def dropTag (l : List Char) : List Char :=
  if l.take 6 = pythonL then l.drop 6 else l

/-- The regex search of `extract_code_from_response`: scan left to right
for an opening fence followed (after the optional tag) by a closing
fence, and return the interior of the first such block. -/
def findMatch : List Char → Option (List Char)
  | [] => none
  | c :: rest =>
    if fenceL.isPrefixOf (c :: rest) then
      match splitAtFence (dropTag ((c :: rest).drop 3)) with
      | some (content, _) => some content
      | none => findMatch rest
    else findMatch rest

/-- `extract_code_from_response` on character lists. -/
def extractL (l : List Char) : List Char :=
  match findMatch l with
  | some content => stripL content
  | none => stripL l

/-- `extract_code_from_response` from `api_tester.py`: pull out the first
code block in triple backticks (optionally tagged "python"), trimmed; if
no code block is found, return the whole string trimmed. -/
def extract_code_from_response (llm_response : String) : String :=
  String.mk (extractL llm_response.data)

/-- Two non-overlapping fences occur in the list: the shape on which the
regex search succeeds. -/
def hasTwoFences (l : List Char) : Prop :=
  ∃ x y z, l = x ++ (fenceL ++ (y ++ (fenceL ++ z)))

/-! ### `agent.py`: the bounded self-correction loop

`safe_run_tests` calls the four tool wrappers from `agent_tools.py`, each
of which shells out to `api_tester.py` and returns captured console output
as a string.  The tools are modelled as string functions supplied by a
`ToolEnv`; the loop is embedded with an explicit trace of which tools it
invoked, in order.  The `print` statements inside `safe_run_tests` are
console logging only and are not modelled. -/

/-- The tools `safe_run_tests` can invoke. -/
inductive ToolCall where
  | run
  | feedback
  | generate
deriving DecidableEq

/-- The behaviour of the subprocess-backed tools from `agent_tools.py`:
each maps its input text to the console output captured from the
corresponding `api_tester.py` subprocess. -/
structure ToolEnv where
  run_tool : String → String
  generate_tool : String → String
  feedback_tool : String → String

/-- The loop's failure test: `"failed" in output.lower()`. -/
def failedIn (s : String) : Bool :=
  containsSub "failed".data (pyLower s.data)

/-- `safe_run_tests` from `agent.py`: run once; if the captured output
contains "failed" (case-insensitively), call the feedback tool with a
prompt embedding the first output, call the generate tool, and run a
second time; report accordingly.  Returns the report string together with
the trace of tool invocations, in order. -/
def safe_run_tests (env : ToolEnv) : String × List ToolCall :=
  let first_run_output := env.run_tool "Run tests"
  let trace1 : List ToolCall := [ToolCall.run]
  if failedIn first_run_output = false then
    ("All tests passed on first attempt.\n\n" ++ first_run_output, trace1)
  else
    let feedback_prompt :=
      "Some tests failed. Here is the run output:\n\n" ++ first_run_output ++
      "\n\nPlease fix these failures and regenerate the tests accordingly."
    let feedback_output := env.feedback_tool feedback_prompt
    let trace2 := trace1 ++ [ToolCall.feedback]
    let generate_output := env.generate_tool "Regenerate tests after failures"
    let trace3 := trace2 ++ [ToolCall.generate]
    let second_run_output := env.run_tool "Run tests again"
    let trace4 := trace3 ++ [ToolCall.run]
    if failedIn second_run_output = false then
      ("Tests passed on second attempt after reflection.\n\n" ++ second_run_output, trace4)
    else
      ("Tests still failed after one reflection attempt.\n\n" ++
       "First run output:\n" ++ first_run_output ++ "\n\n" ++
       "Feedback response:\n" ++ feedback_output ++ "\n\n" ++
       "Regeneration output:\n" ++ generate_output ++ "\n\n" ++
       "Second run output:\n" ++ second_run_output, trace4)

/-- A tool environment whose test runs fail (output contains "FAILED"). -/
def envFail : ToolEnv :=
  ⟨fun _ => "1 FAILED, 6 passed", fun _ => "generation output", fun _ => "feedback output"⟩

/-- A tool environment whose test runs pass (output never mentions failure). -/
def envPass : ToolEnv :=
  ⟨fun _ => "7 passed", fun _ => "generation output", fun _ => "feedback output"⟩

/-! ### `api_tester.py`: completion client, workflow controller, CLI

The process environment, the network, the filesystem, and the pytest
subprocess are modelled as a `CliEnv`.  The single `requests.post` of
`call_openrouter` is represented by a network oracle
(`Except String LlmHttpResponse`: an exception message, or a response),
and the client returns the list of network posts it performed so that
"no network I/O" is statable.  The filesystem is the current content of
`generated_tests.py` (`Option String`); operations return the printed
console lines. -/

/-- The parts of an HTTP response that `call_openrouter` inspects:
status code, raw text, the textual rendering of the parsed JSON body,
and — when the body has a usable `choices` array — the list of
`choices[i]["message"]["content"]` strings. -/
structure LlmHttpResponse where
  status : Nat
  text : String
  jsonText : String
  choices : Option (List String)

/-- A record of one network call performed by the completion client: the
endpoint posted to and the prompt carried in the request body. -/
inductive NetEvent where
  | post (endpoint : String) (prompt : String)
deriving DecidableEq

/-- How the filesystem treats the attempt to write the fixed output
file.  The source opens `generated_tests.py` with the truncating mode
"w" and then writes: an `OSError` raised by `open` itself leaves the
previous file untouched, while an `OSError` raised after `open`, during
the write, leaves the file holding only a prefix (possibly empty) of the
new content — the write is not atomic. -/
inductive WriteOutcome where
  | ok
  | failOpen
  | failPartial (written : Nat)
deriving DecidableEq

/-- The external world of `api_tester.py`: the `OPENROUTER_API_KEY`
environment variable, the outcome the network would provide, how the
write to the fixed output file would fare (and the `OSError` text when
it fails), and the exit code of the pytest subprocess. -/
structure CliEnv where
  openrouter_key : Option String
  net : Except String LlmHttpResponse
  fsWrite : WriteOutcome
  fsErrMsg : String
  pytestExit : Nat

/-- The completions endpoint `call_openrouter` posts to. -/
def OPENROUTER_ENDPOINT : String := "https://openrouter.ai/api/v1/chat/completions"

/-- The diagnostic returned when the credential is absent (or empty,
which Python's truthiness test also treats as missing). -/
def MISSING_KEY_MSG : String :=
  "ERROR: The environment variable OPENROUTER_API_KEY is not set.\nPlease export OPENROUTER_API_KEY=<your_key> and try again."

/-- `call_openrouter` from `api_tester.py`: check the credential before
anything else; then perform the single POST and classify the response.
Returns the result text together with the network calls performed. -/
def call_openrouter (env : CliEnv) (prompt : String) : String × List NetEvent :=
  match env.openrouter_key with
  | none => (MISSING_KEY_MSG, [])
  | some openrouter_key =>
    if openrouter_key = "" then (MISSING_KEY_MSG, [])
    else
      match env.net with
      | Except.error e =>
        ("ERROR: Request to OpenRouter failed: " ++ e,
         [NetEvent.post OPENROUTER_ENDPOINT prompt])
      | Except.ok r =>
        if r.status = 200 then
          match r.choices with
          | some (c :: _) => (pyStrip c, [NetEvent.post OPENROUTER_ENDPOINT prompt])
          | _ =>
            ("ERROR: No 'choices' returned by the LLM. Response content:\n" ++ r.jsonText,
             [NetEvent.post OPENROUTER_ENDPOINT prompt])
        else
          ("ERROR: OpenRouter responded with status " ++ toString r.status ++ ":\n" ++ r.text,
           [NetEvent.post OPENROUTER_ENDPOINT prompt])

/-- `TEST_TEMPLATE` from `api_tester.py` (braces written as escapes). -/
def TEST_TEMPLATE : String :=
  "\nimport os\nimport requests\nimport pytest\n\nBASE_URL = os.getenv('TEST_API_URL', 'http://localhost:8000')\n\n\x7btest_functions\x7d\n"

/-- `PLAN_PROMPT` from `api_tester.py`. -/
def PLAN_PROMPT : String :=
  "Generate a test plan for a fictional REST API with categories like authorization, boundary, and error handling. Include a few scenarios each."

/-- `GENERATION_PROMPT` from `api_tester.py` (an f-string embedding
`TEST_TEMPLATE`; doubled braces rendered literal). -/
def GENERATION_PROMPT : String :=
  "\nBelow is a skeleton of our test file using pytest. Fill in the 'test_functions'\nplaceholder with tests for the following real API behavior from main.py:\n\n1) GET /api/endpoint?param=max => 200, JSON \x7b \"result\": \"success\" \x7d\n2) GET /api/endpoint?param=min => 200, JSON \x7b \"result\": \"success\" \x7d\n3) If param != 'max'/'min':\n   - no Authorization header => 401\n   - 'Bearer invalid-api-key' => 403\n   - otherwise => 404\n4) GET /api/nonexistent => 404\n5) GET /api/error => 500\n\nWe want these exact tests:\n- test_endpoint_with_max\n- test_endpoint_with_min\n- test_endpoint_no_auth\n- test_endpoint_invalid_api_key\n- test_endpoint_random_auth_key\n- test_nonexistent_endpoint\n- test_error_endpoint\n\nSkeleton:\n```python\n" ++
  TEST_TEMPLATE ++
  "\n```\n\nRequirements:\n1. Use '/api/' prefix for all routes.\n2. Only return valid Python code, wrapped in triple backticks (no extra commentary).\n3. Keep 'BASE_URL' from env or default http://localhost:8000.\n4. Provide all tests in place of \x7btest_functions\x7d.\n5. Each test asserts the correct status code (and JSON if needed).\n6. The final output should be a complete Python file that can run under pytest.\n"

/-- The prompt `handle_feedback` builds around the user feedback text. -/
def feedbackPromptFor (user_feedback : String) : String :=
  "\nWe have the above logic for '/api/endpoint', '/api/nonexistent', and '/api/error'.\nUser feedback: '" ++
  user_feedback ++
  "'\n\nPlease update or expand the test code using the same approach. \nThe skeleton is:\n```python\n" ++
  TEST_TEMPLATE ++
  "\n```\nInsert your changes in \x7btest_functions\x7d, produce valid Python code in triple backticks.\n"

/-- `generate_test_code` from `api_tester.py`.  Takes the current content
of `generated_tests.py` and returns its new content together with the
printed console lines: abort without writing when the completion result
starts with "ERROR:"; otherwise extract the code and write it to the
file, reporting an `OSError` as a printed diagnostic without raising.
The write follows the source's `open("w")`-then-`write` sequence: a
failure at `open` leaves the previous content, a failure during the
write leaves the truncated file holding a prefix of the new content. -/
def generate_test_code (env : CliEnv) (fs : Option String) : Option String × List String :=
  let header := "\n----- Requesting Test Code from the LLM -----\n"
  let raw_response := (call_openrouter env GENERATION_PROMPT).1
  if strStartsWith raw_response "ERROR:" then
    (fs, [header, raw_response, "\nGeneration aborted."])
  else
    let python_code := extract_code_from_response raw_response
    match env.fsWrite with
    | WriteOutcome.ok =>
      (some python_code,
       [header, "Successfully generated test code in 'generated_tests.py'\n",
        "----- You may now run the tests with: python api_tester.py run -----\n"])
    | WriteOutcome.failOpen =>
      (fs, [header, "ERROR: Could not write to generated_tests.py: " ++ env.fsErrMsg])
    | WriteOutcome.failPartial written =>
      (some (String.mk (python_code.data.take written)),
       [header, "ERROR: Could not write to generated_tests.py: " ++ env.fsErrMsg])

/-- `generate_plan` from `api_tester.py`: printed console lines. -/
def generate_plan (env : CliEnv) : List String :=
  ["\n----- Fetching a Test Plan from the LLM -----\n",
   (call_openrouter env PLAN_PROMPT).1,
   "\n----- End of Test Plan -----\n"]

/-- `run_tests` from `api_tester.py`: printed console lines, classified
from the pytest exit code. -/
def run_tests (env : CliEnv) : List String :=
  "\n----- Running the generated tests with pytest -----\n" ::
  (if env.pytestExit = 0 then ["\nAll tests passed successfully!"]
   else ["\nSome tests failed with exit code " ++ toString env.pytestExit ++ ". See above for details."])

/-- `handle_feedback` from `api_tester.py`: printed console lines. -/
def handle_feedback (env : CliEnv) (user_feedback : String) : List String :=
  ["\n----- Processing feedback with LLM -----\n",
   (call_openrouter env (feedbackPromptFor user_feedback)).1,
   "\n----- End of Feedback Response -----\n"]

/-- Python `str.lower()` on a `String`. -/
def strLower (s : String) : String := String.mk (pyLower s.data)

/-- The usage lines `main` prints when no command is given. -/
def usageLines : List String :=
  ["Usage:", "  python api_tester.py plan", "  python api_tester.py generate",
   "  python api_tester.py run", "  python api_tester.py feedback \"Your feedback\""]

/-- `main` from `api_tester.py`: `argv` is the full `sys.argv` (program
name first).  Returns the process exit status, the new content of
`generated_tests.py`, and the printed console lines. -/
def main_entry (argv : List String) (env : CliEnv) (fs : Option String) :
    Nat × Option String × List String :=
  if argv.length < 2 then (1, fs, usageLines)
  else
    let command := strLower (argv.getD 1 "")
    if command = "plan" then (0, fs, generate_plan env)
    else if command = "generate" then
      (0, (generate_test_code env fs).1, (generate_test_code env fs).2)
    else if command = "run" then (0, fs, run_tests env)
    else if command = "feedback" then
      if argv.length < 3 then
        (1, fs,
         ["Please provide your feedback in quotes, for example:\n  python api_tester.py feedback \"Add a boundary test.\""])
      else (0, fs, handle_feedback env (String.intercalate " " (argv.drop 2)))
    else (1, fs, ["Unknown command: " ++ command, "Valid commands: plan, generate, run, feedback"])

/-- A spec-level description of the completion client failing: missing or
empty credential, a transport exception, a non-200 status, or a response
without a usable `choices` array. -/
def completionFailed (env : CliEnv) : Prop :=
  env.openrouter_key = none ∨ env.openrouter_key = some "" ∨
  (∃ e, env.net = Except.error e) ∨
  (∃ r, env.net = Except.ok r ∧ r.status ≠ 200) ∨
  (∃ r, env.net = Except.ok r ∧ (r.choices = none ∨ r.choices = some []))

/-- A spec-level description of the completion client succeeding with
first-choice content `c`. -/
def completionOk (env : CliEnv) (c : String) : Prop :=
  ∃ k r cs, env.openrouter_key = some k ∧ k ≠ "" ∧ env.net = Except.ok r ∧
    r.status = 200 ∧ r.choices = some (c :: cs)

/-- An environment with no credential configured. -/
def envNoKey : CliEnv :=
  { openrouter_key := none, net := Except.error "network unreachable",
    fsWrite := WriteOutcome.ok, fsErrMsg := "", pytestExit := 0 }

/-- An environment whose completion call succeeds (HTTP 200 with a
nonempty choices array) but whose returned content begins with
"ERROR:". -/
def envErrContent : CliEnv :=
  { openrouter_key := some "sk-test", net := Except.ok ⟨200, "", "", some ["ERROR: fake completion"]⟩,
    fsWrite := WriteOutcome.ok, fsErrMsg := "", pytestExit := 0 }

/-- An environment with a successful completion carrying a fenced python
block. -/
def envGoodGen : CliEnv :=
  { openrouter_key := some "sk-test",
    net := Except.ok ⟨200, "", "", some ["```python\nprint(1)\n```"]⟩,
    fsWrite := WriteOutcome.ok, fsErrMsg := "", pytestExit := 0 }

/-- `envGoodGen` with a write that fails at `open`. -/
def envBadDisk : CliEnv :=
  { openrouter_key := some "sk-test",
    net := Except.ok ⟨200, "", "", some ["```python\nprint(1)\n```"]⟩,
    fsWrite := WriteOutcome.failOpen, fsErrMsg := "disk full", pytestExit := 0 }

/-- `envGoodGen` with a write that fails midway, after five characters. -/
def envTornDisk : CliEnv :=
  { openrouter_key := some "sk-test",
    net := Except.ok ⟨200, "", "", some ["```python\nprint(1)\n```"]⟩,
    fsWrite := WriteOutcome.failPartial 5, fsErrMsg := "disk full", pytestExit := 0 }

/-! ### `main.py`: the fixture API -/

/-- An HTTP reply of the fixture API: status code and body.  For the
success case the body is the JSON object FastAPI serialises; for
`HTTPException` branches it is the `detail` string. -/
structure HttpReply where
  status : Nat
  body : String
deriving DecidableEq

/-- The JSON body returned on the `param == max` / `param == min`
branches of `/api/endpoint`. -/
def successBody : String := "\x7b\"result\":\"success\"\x7d"

/-- `GET /api/endpoint` from `main.py`: `param` is the optional query
value, `auth_header` the optional `Authorization` header. -/
def get_endpoint (param : Option String) (auth_header : Option String) : HttpReply :=
  if param = some "max" then ⟨200, successBody⟩
  else if param = some "min" then ⟨200, successBody⟩
  else if auth_header = some "Bearer invalid-api-key" then ⟨403, "Forbidden"⟩
  else if auth_header = none then ⟨401, "Unauthorized"⟩
  else ⟨404, "Not found"⟩

/-- `GET /api/nonexistent` from `main.py`. -/
def get_nonexistent : HttpReply := ⟨404, "Non-existent endpoint"⟩

/-- `GET /api/error` from `main.py`. -/
def get_error : HttpReply := ⟨500, "Server error"⟩

/-- The fixture API as a function from (path, query parameter,
Authorization header) to a reply; `none` for unrouted paths. -/
def fixture_api (path : String) (param auth_header : Option String) : Option HttpReply :=
  if path = "/api/endpoint" then some (get_endpoint param auth_header)
  else if path = "/api/nonexistent" then some get_nonexistent
  else if path = "/api/error" then some get_error
  else none

/-! ### Auxiliary lemmas -/

/-- Prefix tests survive appending on the right. -/
theorem strStartsWith_append (s t pat : String) (h : strStartsWith s pat = true) :
    strStartsWith (s ++ t) pat = true := by
  unfold strStartsWith at h ⊢
  rw [String.data_append, List.isPrefixOf_iff_prefix] at *
  exact h.trans (List.prefix_append _ _)

/-- Whenever the completion client fails, its result text carries the
"ERROR:" marker that the callers test for. -/
theorem call_openrouter_failed_marker (env : CliEnv) (p : String)
    (h : completionFailed env) :
    strStartsWith (call_openrouter env p).1 "ERROR:" = true := by
  have hmiss : strStartsWith MISSING_KEY_MSG "ERROR:" = true := by decide
  rcases h with h | h | ⟨e, h⟩ | ⟨r, h, hst⟩ | ⟨r, h, hch⟩
  · have hc : (call_openrouter env p).1 = MISSING_KEY_MSG := by
      simp [call_openrouter, h]
    rw [hc]; exact hmiss
  · have hc : (call_openrouter env p).1 = MISSING_KEY_MSG := by
      simp [call_openrouter, h]
    rw [hc]; exact hmiss
  · cases hk : env.openrouter_key with
    | none =>
      have hc : (call_openrouter env p).1 = MISSING_KEY_MSG := by
        simp [call_openrouter, hk]
      rw [hc]; exact hmiss
    | some k =>
      by_cases hk2 : k = ""
      · have hc : (call_openrouter env p).1 = MISSING_KEY_MSG := by
          simp [call_openrouter, hk, hk2]
        rw [hc]; exact hmiss
      · have hc : (call_openrouter env p).1 =
            "ERROR: Request to OpenRouter failed: " ++ e := by
          simp [call_openrouter, hk, hk2, h]
        rw [hc]; exact strStartsWith_append _ _ _ (by decide)
  · cases hk : env.openrouter_key with
    | none =>
      have hc : (call_openrouter env p).1 = MISSING_KEY_MSG := by
        simp [call_openrouter, hk]
      rw [hc]; exact hmiss
    | some k =>
      by_cases hk2 : k = ""
      · have hc : (call_openrouter env p).1 = MISSING_KEY_MSG := by
          simp [call_openrouter, hk, hk2]
        rw [hc]; exact hmiss
      · have hc : (call_openrouter env p).1 =
            "ERROR: OpenRouter responded with status " ++ toString r.status ++
              ":\n" ++ r.text := by
          simp [call_openrouter, hk, hk2, h, hst]
        rw [hc]
        exact strStartsWith_append _ _ _
          (strStartsWith_append _ _ _ (strStartsWith_append _ _ _ (by decide)))
  · cases hk : env.openrouter_key with
    | none =>
      have hc : (call_openrouter env p).1 = MISSING_KEY_MSG := by
        simp [call_openrouter, hk]
      rw [hc]; exact hmiss
    | some k =>
      by_cases hk2 : k = ""
      · have hc : (call_openrouter env p).1 = MISSING_KEY_MSG := by
          simp [call_openrouter, hk, hk2]
        rw [hc]; exact hmiss
      · by_cases hst : r.status = 200
        · have hc : (call_openrouter env p).1 =
              "ERROR: No 'choices' returned by the LLM. Response content:\n" ++
                r.jsonText := by
            rcases hch with hch | hch <;>
              simp [call_openrouter, hk, hk2, h, hst, hch]
          rw [hc]; exact strStartsWith_append _ _ _ (by decide)
        · have hc : (call_openrouter env p).1 =
              "ERROR: OpenRouter responded with status " ++ toString r.status ++
                ":\n" ++ r.text := by
            simp [call_openrouter, hk, hk2, h, hst]
          rw [hc]
          exact strStartsWith_append _ _ _
            (strStartsWith_append _ _ _ (strStartsWith_append _ _ _ (by decide)))

/-! ### Theory of the extractor -/

/-- Equation lemma for `splitAtFence` on a cons cell. -/
theorem splitAtFence_cons (c : Char) (rest : List Char) :
    splitAtFence (c :: rest) =
      if fenceL.isPrefixOf (c :: rest) = true then some ([], (c :: rest).drop 3)
      else
        match splitAtFence rest with
        | some (b, a) => some (c :: b, a)
        | none => none := by
  simp only [splitAtFence]

/-- Equation lemma for `findMatch` on a cons cell. -/
theorem findMatch_cons (c : Char) (rest : List Char) :
    findMatch (c :: rest) =
      if fenceL.isPrefixOf (c :: rest) = true then
        match splitAtFence (dropTag ((c :: rest).drop 3)) with
        | some (content, _) => some content
        | none => findMatch rest
      else findMatch rest := by
  simp only [findMatch]

/-- Substring containment characterised by a decomposition. -/
theorem containsSub_iff (pat l : List Char) :
    containsSub pat l = true ↔ ∃ x y, l = x ++ (pat ++ y) := by
  induction l with
  | nil =>
    simp only [containsSub, List.isEmpty_iff]
    constructor
    · rintro rfl
      exact ⟨[], [], rfl⟩
    · rintro ⟨x, y, h⟩
      rcases List.append_eq_nil.mp h.symm with ⟨h1, h2⟩
      exact (List.append_eq_nil.mp h2).1
  | cons c rest ih =>
    simp only [containsSub, Bool.or_eq_true, ih, List.isPrefixOf_iff_prefix]
    constructor
    · rintro (⟨t, ht⟩ | ⟨x, y, hxy⟩)
      · exact ⟨[], t, by simp [← ht]⟩
      · exact ⟨c :: x, y, by simp [hxy]⟩
    · rintro ⟨x, y, hxy⟩
      cases x with
      | nil =>
        left
        exact ⟨y, by simpa using hxy.symm⟩
      | cons a x =>
        right
        simp only [List.cons_append] at hxy
        injection hxy with h1 h2
        exact ⟨x, y, h2⟩

/-- Substring containment is inherited from any middle segment. -/
theorem containsSub_of_middle (pat m u v l : List Char)
    (h : containsSub pat m = true) (hd : l = u ++ (m ++ v)) :
    containsSub pat l = true := by
  obtain ⟨x, y, hx⟩ := (containsSub_iff pat m).mp h
  exact (containsSub_iff pat l).mpr ⟨u ++ x, y ++ v, by simp [hd, hx]⟩

/-- `splitAtFence` decomposes its input at a fence, and the part before
the fence holds no fence. -/
theorem splitAtFence_eq (l b a : List Char) (h : splitAtFence l = some (b, a)) :
    l = b ++ (fenceL ++ a) ∧ containsSub fenceL b = false := by
  induction l generalizing b a with
  | nil => simp [splitAtFence] at h
  | cons c rest ih =>
    by_cases hp : fenceL.isPrefixOf (c :: rest) = true
    · obtain ⟨t, ht⟩ := List.isPrefixOf_iff_prefix.mp hp
      have hdrop : (c :: rest).drop 3 = t := by
        rw [← ht]; exact List.drop_left' rfl
      have e : splitAtFence (c :: rest) = some ([], t) := by
        rw [splitAtFence_cons, hdrop]; simp [hp]
      rw [e] at h
      injection h with h
      injection h with hb ha
      subst hb; subst ha
      exact ⟨by rw [← ht]; rfl, by decide⟩
    · have hp2 : fenceL.isPrefixOf (c :: rest) = false := eq_false_of_ne_true hp
      cases hs : splitAtFence rest with
      | none =>
        have e : splitAtFence (c :: rest) = none := by
          rw [splitAtFence_cons, hs]; simp [hp2]
        rw [e] at h
        exact absurd h (by simp)
      | some ba =>
        obtain ⟨b2, a2⟩ := ba
        have e : splitAtFence (c :: rest) = some (c :: b2, a2) := by
          rw [splitAtFence_cons, hs]; simp [hp2]
        rw [e] at h
        injection h with h
        injection h with hb ha
        subst hb; subst ha
        obtain ⟨hrest, hnf⟩ := ih b2 a2 hs
        refine ⟨by simp [hrest], ?_⟩
        simp only [containsSub, Bool.or_eq_false_iff]
        refine ⟨?_, hnf⟩
        by_contra hc
        rw [Bool.not_eq_false] at hc
        obtain ⟨t, ht⟩ := List.isPrefixOf_iff_prefix.mp hc
        have hpre : fenceL.isPrefixOf (c :: rest) = true := by
          rw [List.isPrefixOf_iff_prefix]
          refine ⟨t ++ (fenceL ++ a2), ?_⟩
          rw [hrest, ← List.append_assoc, ht]
          simp
        exact hp hpre

/-- A list containing a fence splits at one. -/
theorem splitAtFence_isSome (l : List Char) (h : containsSub fenceL l = true) :
    (splitAtFence l).isSome = true := by
  induction l with
  | nil => exact absurd h (by decide)
  | cons c rest ih =>
    by_cases hp : fenceL.isPrefixOf (c :: rest) = true
    · have e : splitAtFence (c :: rest) = some ([], (c :: rest).drop 3) := by
        rw [splitAtFence_cons]; simp [hp]
      rw [e]; rfl
    · have hp2 : fenceL.isPrefixOf (c :: rest) = false := eq_false_of_ne_true hp
      have hrest : containsSub fenceL rest = true := by
        have h2 : (fenceL.isPrefixOf (c :: rest) || containsSub fenceL rest) = true := h
        rw [hp2, Bool.false_or] at h2
        exact h2
      have := ih hrest
      cases hs : splitAtFence rest with
      | none => rw [hs] at this; exact absurd this (by simp)
      | some ba =>
        obtain ⟨b2, a2⟩ := ba
        have e : splitAtFence (c :: rest) = some (c :: b2, a2) := by
          rw [splitAtFence_cons, hs]; simp [hp2]
        rw [e]; rfl

/-- With no fence anywhere, the regex search fails. -/
theorem findMatch_eq_none_of_not_contains (l : List Char)
    (h : containsSub fenceL l = false) : findMatch l = none := by
  induction l with
  | nil => rfl
  | cons c rest ih =>
    have h2 : (fenceL.isPrefixOf (c :: rest) || containsSub fenceL rest) = false := h
    rw [Bool.or_eq_false_iff] at h2
    obtain ⟨h1, h2⟩ := h2
    rw [findMatch_cons]
    simp [h1, ih h2]

/-- The interior the regex search returns never holds a complete fence. -/
theorem findMatch_content_no_fence (l content : List Char)
    (h : findMatch l = some content) : containsSub fenceL content = false := by
  induction l generalizing content with
  | nil => simp [findMatch] at h
  | cons c rest ih =>
    by_cases hp : fenceL.isPrefixOf (c :: rest) = true
    · cases hs : splitAtFence (dropTag ((c :: rest).drop 3)) with
      | some ba =>
        obtain ⟨b, a⟩ := ba
        have e : findMatch (c :: rest) = some b := by
          rw [findMatch_cons, hs]; simp [hp]
        rw [e] at h
        injection h with h
        subst h
        exact (splitAtFence_eq _ _ _ hs).2
      | none =>
        have e : findMatch (c :: rest) = findMatch rest := by
          rw [findMatch_cons, hs]; simp [hp]
        rw [e] at h
        exact ih content h
    · have hp2 : fenceL.isPrefixOf (c :: rest) = false := eq_false_of_ne_true hp
      have e : findMatch (c :: rest) = findMatch rest := by
        rw [findMatch_cons]; simp [hp2]
      rw [e] at h
      exact ih content h

/-- When six characters of the tag fit before an appended backtick, the
list in front of the backtick is at least six long. -/
theorem length_ge_of_take6 (y rest : List Char)
    (h : (y ++ '`' :: rest).take 6 = pythonL) : 6 ≤ y.length := by
  by_contra hlt
  push_neg at hlt
  have h1 : (y ++ '`' :: rest)[y.length]? = some '`' := by
    rw [List.getElem?_append_right (Nat.le_refl _)]
    simp
  have h2 : ((y ++ '`' :: rest).take 6)[y.length]? = some '`' := by
    rw [List.getElem?_take_of_lt hlt]
    exact h1
  rw [h] at h2
  have := List.getElem?_mem h2
  exact absurd this (by decide)

/-- The optional tag cannot match across the closing backtick when the
interior itself does not start with "python". -/
theorem take6_ne (t rest : List Char) (hpy : ¬ pythonL <+: t) :
    (t ++ '`' :: rest).take 6 ≠ pythonL := by
  intro h
  have h6 := length_ge_of_take6 t rest h
  rw [List.take_append_of_le_length h6] at h
  exact hpy ⟨t.drop 6, by rw [← h]; exact List.take_append_drop 6 t⟩

/-- Evaluation of the regex search at an opening fence whose body splits
at a closing fence. -/
theorem findMatch_fence_some (w content after : List Char)
    (h : splitAtFence (dropTag w) = some (content, after)) :
    findMatch (fenceL ++ w) = some content := by
  have hp : fenceL.isPrefixOf ('`' :: ('`' :: ('`' :: w))) = true :=
    List.isPrefixOf_iff_prefix.mpr ⟨w, rfl⟩
  have hdrop : ('`' :: ('`' :: ('`' :: w))).drop 3 = w := rfl
  show findMatch ('`' :: ('`' :: ('`' :: w))) = some content
  rw [findMatch_cons, hdrop, h]
  simp [hp]

/-- The regex search skips a backtick-free garbage segment. -/
theorem findMatch_append (a rest : List Char) (ha : ∀ x ∈ a, x ≠ '`') :
    findMatch (a ++ rest) = findMatch rest := by
  induction a with
  | nil => rfl
  | cons c a ih =>
    have hc : c ≠ '`' := ha c (by simp)
    have hp : fenceL.isPrefixOf (c :: (a ++ rest)) = false := by
      show List.isPrefixOf ('`' :: ['`', '`']) (c :: (a ++ rest)) = false
      rw [List.isPrefixOf_cons₂]
      have hb : ('`' == c) = false := by
        simp only [beq_eq_false_iff_ne, ne_eq]
        exact fun hh => hc hh.symm
      rw [hb, Bool.false_and]
    show findMatch (c :: (a ++ rest)) = findMatch rest
    rw [findMatch_cons]
    simp only [hp, Bool.false_eq_true, if_false]
    exact ih (fun x hx => ha x (by simp [hx]))

/-- `splitAtFence` splits a backtick-free interior at its closing fence. -/
theorem splitAtFence_append (t c : List Char) (ht : ∀ x ∈ t, x ≠ '`') :
    splitAtFence (t ++ (fenceL ++ c)) = some (t, c) := by
  induction t with
  | nil =>
    have hp : fenceL.isPrefixOf ('`' :: ('`' :: ('`' :: c))) = true :=
      List.isPrefixOf_iff_prefix.mpr ⟨c, rfl⟩
    have hdrop : ('`' :: ('`' :: ('`' :: c))).drop 3 = c := rfl
    show splitAtFence ('`' :: ('`' :: ('`' :: c))) = some ([], c)
    rw [splitAtFence_cons, hdrop]
    simp [hp]
  | cons x t ih =>
    have hc : x ≠ '`' := ht x (by simp)
    have hp : fenceL.isPrefixOf (x :: (t ++ (fenceL ++ c))) = false := by
      show List.isPrefixOf ('`' :: ['`', '`']) (x :: (t ++ (fenceL ++ c))) = false
      rw [List.isPrefixOf_cons₂]
      have hb : ('`' == x) = false := by
        simp only [beq_eq_false_iff_ne, ne_eq]
        exact fun hh => hc hh.symm
      rw [hb, Bool.false_and]
    have ih2 := ih (fun y hy => ht y (by simp [hy]))
    show splitAtFence (x :: (t ++ (fenceL ++ c))) = some (x :: t, c)
    rw [splitAtFence_cons, ih2]
    simp [hp]

/-- `hasTwoFences` survives prepending one character. -/
theorem hasTwoFences_cons (c : Char) (rest : List Char) (h : hasTwoFences rest) :
    hasTwoFences (c :: rest) := by
  obtain ⟨x, y, z, hx⟩ := h
  exact ⟨c :: x, y, z, by rw [hx]; rfl⟩

/-- If the regex search succeeds, the input holds an opening and a
closing fence. -/
theorem findMatch_isSome_two (l : List Char) (h : (findMatch l).isSome = true) :
    hasTwoFences l := by
  induction l with
  | nil => simp [findMatch] at h
  | cons c rest ih =>
    by_cases hp : fenceL.isPrefixOf (c :: rest) = true
    · cases hs : splitAtFence (dropTag ((c :: rest).drop 3)) with
      | some ba =>
        obtain ⟨b, a⟩ := ba
        obtain ⟨t, ht⟩ := List.isPrefixOf_iff_prefix.mp hp
        have hdrop : (c :: rest).drop 3 = t := by
          rw [← ht]; exact List.drop_left' rfl
        rw [hdrop] at hs
        obtain ⟨hsplit, hnof⟩ := splitAtFence_eq _ _ _ hs
        by_cases htag : t.take 6 = pythonL
        · have h6 : (6 : Nat) ≤ t.length := by
            have hlt := congrArg List.length htag
            rw [List.length_take] at hlt
            have hlen : pythonL.length = 6 := by decide
            rw [hlen] at hlt
            omega
          have hdt : dropTag t = t.drop 6 := by
            unfold dropTag; rw [if_pos htag]
          rw [hdt] at hsplit
          refine ⟨[], pythonL ++ b, a, ?_⟩
          rw [← ht, ← List.take_append_drop 6 t, htag, hsplit]
          simp
        · have hdt : dropTag t = t := by
            unfold dropTag; rw [if_neg htag]
          rw [hdt] at hsplit
          refine ⟨[], b, a, ?_⟩
          rw [← ht, hsplit]
          simp
      | none =>
        have e : findMatch (c :: rest) = findMatch rest := by
          rw [findMatch_cons, hs]; simp [hp]
        rw [e] at h
        exact hasTwoFences_cons c rest (ih h)
    · have hp2 : fenceL.isPrefixOf (c :: rest) = false := eq_false_of_ne_true hp
      have e : findMatch (c :: rest) = findMatch rest := by
        rw [findMatch_cons]; simp [hp2]
      rw [e] at h
      exact hasTwoFences_cons c rest (ih h)

/-- Conversely, on any input holding an opening and a closing fence the
regex search succeeds. -/
theorem two_findMatch_isSome (l : List Char) (h : hasTwoFences l) :
    (findMatch l).isSome = true := by
  obtain ⟨x, y, z, hx⟩ := h
  subst hx
  induction x with
  | nil =>
    have hcont : containsSub fenceL (dropTag (y ++ (fenceL ++ z))) = true := by
      by_cases htag : (y ++ (fenceL ++ z)).take 6 = pythonL
      · have h6 : (6 : Nat) ≤ y.length :=
          length_ge_of_take6 y ('`' :: ('`' :: z)) htag
        have hdt : dropTag (y ++ (fenceL ++ z)) = y.drop 6 ++ (fenceL ++ z) := by
          unfold dropTag
          rw [if_pos htag, List.drop_append_of_le_length h6]
        rw [hdt]
        exact (containsSub_iff _ _).mpr ⟨y.drop 6, z, rfl⟩
      · have hdt : dropTag (y ++ (fenceL ++ z)) = y ++ (fenceL ++ z) := by
          unfold dropTag; rw [if_neg htag]
        rw [hdt]
        exact (containsSub_iff _ _).mpr ⟨y, z, rfl⟩
    have hsome := splitAtFence_isSome _ hcont
    cases hs : splitAtFence (dropTag (y ++ (fenceL ++ z))) with
    | none => rw [hs] at hsome; exact absurd hsome (by simp)
    | some ba =>
      obtain ⟨b, a⟩ := ba
      show (findMatch (fenceL ++ (y ++ (fenceL ++ z)))).isSome = true
      rw [findMatch_fence_some _ _ _ hs]
      rfl
  | cons c x ih =>
    show (findMatch (c :: (x ++ (fenceL ++ (y ++ (fenceL ++ z)))))).isSome = true
    by_cases hp : fenceL.isPrefixOf (c :: (x ++ (fenceL ++ (y ++ (fenceL ++ z))))) = true
    · cases hs : splitAtFence (dropTag ((c :: (x ++ (fenceL ++ (y ++ (fenceL ++ z))))).drop 3)) with
      | some ba =>
        obtain ⟨b, a⟩ := ba
        have e : findMatch (c :: (x ++ (fenceL ++ (y ++ (fenceL ++ z))))) = some b := by
          rw [findMatch_cons, hs]; simp [hp]
        rw [e]; rfl
      | none =>
        have e : findMatch (c :: (x ++ (fenceL ++ (y ++ (fenceL ++ z))))) =
            findMatch (x ++ (fenceL ++ (y ++ (fenceL ++ z)))) := by
          rw [findMatch_cons, hs]; simp [hp]
        rw [e]; exact ih
    · have hp2 : fenceL.isPrefixOf (c :: (x ++ (fenceL ++ (y ++ (fenceL ++ z))))) = false :=
        eq_false_of_ne_true hp
      have e : findMatch (c :: (x ++ (fenceL ++ (y ++ (fenceL ++ z))))) =
          findMatch (x ++ (fenceL ++ (y ++ (fenceL ++ z)))) := by
        rw [findMatch_cons]; simp [hp2]
      rw [e]; exact ih

/-- `dropWhile` is idempotent. -/
theorem dropWhile_dropWhile (p : Char → Bool) (l : List Char) :
    (l.dropWhile p).dropWhile p = l.dropWhile p := by
  induction l with
  | nil => rfl
  | cons c rest ih =>
    by_cases h : p c = true
    · rw [List.dropWhile_cons_of_pos h]
      exact ih
    · rw [List.dropWhile_cons_of_neg h, List.dropWhile_cons_of_neg h]

/-- The head surviving a `dropWhile` fails the predicate. -/
theorem pySpace_head_of_dropWhile (l : List Char) (c : Char) (t : List Char)
    (h : l.dropWhile pySpace = c :: t) : pySpace c = false := by
  induction l with
  | nil => simp [List.dropWhile] at h
  | cons a rest ih =>
    by_cases ha : pySpace a = true
    · rw [List.dropWhile_cons_of_pos ha] at h
      exact ih h
    · rw [List.dropWhile_cons_of_neg ha] at h
      injection h with h1 h2
      rw [← h1]
      exact eq_false_of_ne_true ha

/-- Any list splits as its right-trimmed part followed by trailing
whitespace. -/
theorem reverse_decomp (d : List Char) :
    d = (d.reverse.dropWhile pySpace).reverse ++ (d.reverse.takeWhile pySpace).reverse := by
  have h1 : d.reverse.takeWhile pySpace ++ d.reverse.dropWhile pySpace = d.reverse :=
    List.takeWhile_append_dropWhile _ _
  calc d = d.reverse.reverse := (List.reverse_reverse d).symm
    _ = (d.reverse.takeWhile pySpace ++ d.reverse.dropWhile pySpace).reverse := by rw [h1]
    _ = (d.reverse.dropWhile pySpace).reverse ++ (d.reverse.takeWhile pySpace).reverse := by
        rw [List.reverse_append]

/-- The stripped text sits in the middle of the original text. -/
theorem stripL_decomp (l : List Char) : ∃ u v, l = u ++ (stripL l ++ v) := by
  refine ⟨l.takeWhile pySpace,
    ((l.dropWhile pySpace).reverse.takeWhile pySpace).reverse, ?_⟩
  calc l = l.takeWhile pySpace ++ l.dropWhile pySpace :=
        (List.takeWhile_append_dropWhile _ _).symm
    _ = l.takeWhile pySpace ++
          (stripL l ++ ((l.dropWhile pySpace).reverse.takeWhile pySpace).reverse) :=
        congrArg (fun w => l.takeWhile pySpace ++ w) (reverse_decomp (l.dropWhile pySpace))

/-- Stripped text has no leading whitespace. -/
theorem stripL_no_lead (l : List Char) : (stripL l).dropWhile pySpace = stripL l := by
  cases hs : stripL l with
  | nil => rfl
  | cons c t =>
    have hd : l.dropWhile pySpace =
        stripL l ++ ((l.dropWhile pySpace).reverse.takeWhile pySpace).reverse :=
      reverse_decomp _
    rw [hs] at hd
    have hc : pySpace c = false :=
      pySpace_head_of_dropWhile l c _ (by rw [hd]; rfl)
    rw [List.dropWhile_cons_of_neg (by simp [hc])]

/-- Stripped text has no trailing whitespace. -/
theorem stripL_rev_no_lead (l : List Char) :
    (stripL l).reverse.dropWhile pySpace = (stripL l).reverse := by
  have h : (stripL l).reverse = (l.dropWhile pySpace).reverse.dropWhile pySpace := by
    unfold stripL
    rw [List.reverse_reverse]
  rw [h]
  exact dropWhile_dropWhile _ _

/-- `str.strip` is idempotent. -/
theorem stripL_stripL (l : List Char) : stripL (stripL l) = stripL l := by
  have h : stripL (stripL l) =
      (((stripL l).dropWhile pySpace).reverse.dropWhile pySpace).reverse := rfl
  rw [h, stripL_no_lead l, stripL_rev_no_lead l, List.reverse_reverse]

/-! ### The claims -/

/-- Claim C1: if the first run's captured output contains "failed" in any
letter case, `safe_run_tests` invokes feedback, generate, and a second run
exactly once each, in that order; otherwise it invokes none of them and
reports success with the first run's captured output. -/
theorem claim_C1 (env : ToolEnv) :
    (failedIn (env.run_tool "Run tests") = true →
      (safe_run_tests env).2 =
        [ToolCall.run, ToolCall.feedback, ToolCall.generate, ToolCall.run]) ∧
    (failedIn (env.run_tool "Run tests") = false →
      (safe_run_tests env).2 = [ToolCall.run] ∧
      (safe_run_tests env).1 =
        "All tests passed on first attempt.\n\n" ++ env.run_tool "Run tests") := by
  constructor
  · intro h
    by_cases h2 : failedIn (env.run_tool "Run tests again") = false <;>
      simp [safe_run_tests, h, h2]
  · intro h
    simp [safe_run_tests, h]

/-- Witness for C1: a concrete failing first run produces the full
four-call trace, and a concrete passing first run stops at one call. -/
theorem claim_C1_witness :
    (safe_run_tests envFail).2 =
      [ToolCall.run, ToolCall.feedback, ToolCall.generate, ToolCall.run] ∧
    (safe_run_tests envPass).2 = [ToolCall.run] :=
  ⟨(claim_C1 envFail).1 (by decide), ((claim_C1 envPass).2 (by decide)).1⟩

/-- Claim C2: regardless of any tool outcome, `safe_run_tests` performs at
most two run invocations; it is a total Lean function, hence always
terminates, and its trace never holds a third run. -/
theorem claim_C2 (env : ToolEnv) :
    ((safe_run_tests env).2.count ToolCall.run ≤ 2) := by
  by_cases h1 : failedIn (env.run_tool "Run tests") = false <;>
    by_cases h2 : failedIn (env.run_tool "Run tests again") = false <;>
      simp [safe_run_tests, h1, h2]

/-- Claim C3: the fixture API's full decision table, including the
evaluation order — param checks (max/min) before auth checks, the
invalid-key check before the missing-header check, which comes before the
catch-all 404; `/api/nonexistent` is always 404 and `/api/error` always
500. -/
theorem claim_C3 (param auth : Option String) :
    ((param = some "max" ∨ param = some "min") →
      fixture_api "/api/endpoint" param auth = some ⟨200, successBody⟩) ∧
    (param ≠ some "max" → param ≠ some "min" →
      auth = some "Bearer invalid-api-key" →
      fixture_api "/api/endpoint" param auth = some ⟨403, "Forbidden"⟩) ∧
    (param ≠ some "max" → param ≠ some "min" →
      auth = none →
      fixture_api "/api/endpoint" param auth = some ⟨401, "Unauthorized"⟩) ∧
    (param ≠ some "max" → param ≠ some "min" →
      auth ≠ some "Bearer invalid-api-key" → auth ≠ none →
      fixture_api "/api/endpoint" param auth = some ⟨404, "Not found"⟩) ∧
    (fixture_api "/api/nonexistent" param auth = some ⟨404, "Non-existent endpoint"⟩) ∧
    (fixture_api "/api/error" param auth = some ⟨500, "Server error"⟩) := by
  refine ⟨?_, ?_, ?_, ?_, ?_, ?_⟩
  · rintro (h | h) <;> simp [fixture_api, get_endpoint, h]
  · intro h1 h2 h3
    simp [fixture_api, get_endpoint, h1, h2, h3]
  · intro h1 h2 h3
    subst h3
    simp [fixture_api, get_endpoint, h1, h2]
  · intro h1 h2 h3 h4
    simp [fixture_api, get_endpoint, h1, h2, h3, h4]
  · simp [fixture_api, get_nonexistent]
  · simp [fixture_api, get_error]

/-- Witness for C3: each row of the decision table evaluated at a
concrete request. -/
theorem claim_C3_witness :
    fixture_api "/api/endpoint" (some "max") (some "Bearer invalid-api-key") =
      some ⟨200, successBody⟩ ∧
    fixture_api "/api/endpoint" (some "x") (some "Bearer invalid-api-key") =
      some ⟨403, "Forbidden"⟩ ∧
    fixture_api "/api/endpoint" (some "x") none = some ⟨401, "Unauthorized"⟩ ∧
    fixture_api "/api/endpoint" (some "x") (some "Bearer other") =
      some ⟨404, "Not found"⟩ ∧
    fixture_api "/api/nonexistent" none none = some ⟨404, "Non-existent endpoint"⟩ ∧
    fixture_api "/api/error" none none = some ⟨500, "Server error"⟩ :=
  ⟨(claim_C3 (some "max") (some "Bearer invalid-api-key")).1 (Or.inl rfl),
   (claim_C3 (some "x") (some "Bearer invalid-api-key")).2.1
     (by decide) (by decide) rfl,
   (claim_C3 (some "x") none).2.2.1 (by decide) (by decide) rfl,
   (claim_C3 (some "x") (some "Bearer other")).2.2.2.1
     (by decide) (by decide) (by decide) (by decide),
   (claim_C3 none none).2.2.2.2.1,
   (claim_C3 none none).2.2.2.2.2⟩

/-- Claim C4: `extract_code_from_response` is a total Lean function,
hence deterministic and pure.  First conjunct: an untagged well-formed
block (backtick-free garbage before it, backtick-free interior not
starting with the "python" tag) yields exactly the trimmed interior of
the first block, whatever follows — including further fences; an empty
interior yields the empty string as the `t = []` instance.  Second
conjunct: the same for a "python"-tagged block.  Third conjunct: with
zero fences the trimmed input comes back unchanged.  Fourth conjunct:
the empty input yields the empty string. -/
theorem claim_C4 :
    (∀ a t c : List Char, (∀ x ∈ a, x ≠ '`') → (∀ x ∈ t, x ≠ '`') →
      ¬ pythonL <+: t →
      extract_code_from_response (String.mk (a ++ (fenceL ++ (t ++ (fenceL ++ c))))) =
        String.mk (stripL t)) ∧
    (∀ a t c : List Char, (∀ x ∈ a, x ≠ '`') → (∀ x ∈ t, x ≠ '`') →
      extract_code_from_response
          (String.mk (a ++ (fenceL ++ (pythonL ++ (t ++ (fenceL ++ c)))))) =
        String.mk (stripL t)) ∧
    (∀ s : String, containsSub fenceL s.data = false →
      extract_code_from_response s = String.mk (stripL s.data)) ∧
    extract_code_from_response "" = "" := by
  refine ⟨?_, ?_, ?_, ?_⟩
  · intro a t c ha ht hpy
    have htag : dropTag (t ++ (fenceL ++ c)) = t ++ (fenceL ++ c) := by
      unfold dropTag
      rw [if_neg]
      exact take6_ne t ('`' :: ('`' :: c)) hpy
    have hsp : splitAtFence (dropTag (t ++ (fenceL ++ c))) = some (t, c) := by
      rw [htag]
      exact splitAtFence_append t c ht
    have h1 : findMatch (a ++ (fenceL ++ (t ++ (fenceL ++ c)))) = some t := by
      rw [findMatch_append a _ ha]
      exact findMatch_fence_some _ _ _ hsp
    show String.mk (extractL (a ++ (fenceL ++ (t ++ (fenceL ++ c))))) = String.mk (stripL t)
    refine congrArg String.mk ?_
    simp only [extractL, h1]
  · intro a t c ha ht
    have htag : dropTag (pythonL ++ (t ++ (fenceL ++ c))) = t ++ (fenceL ++ c) := by
      unfold dropTag
      have h6 : (pythonL ++ (t ++ (fenceL ++ c))).take 6 = pythonL :=
        List.take_left' (by decide)
      rw [if_pos h6]
      exact List.drop_left' (by decide)
    have hsp : splitAtFence (dropTag (pythonL ++ (t ++ (fenceL ++ c)))) = some (t, c) := by
      rw [htag]
      exact splitAtFence_append t c ht
    have h1 : findMatch (a ++ (fenceL ++ (pythonL ++ (t ++ (fenceL ++ c))))) = some t := by
      rw [findMatch_append a _ ha]
      exact findMatch_fence_some _ _ _ hsp
    show String.mk (extractL (a ++ (fenceL ++ (pythonL ++ (t ++ (fenceL ++ c)))))) =
      String.mk (stripL t)
    refine congrArg String.mk ?_
    simp only [extractL, h1]
  · intro s hs
    have h1 : findMatch s.data = none := findMatch_eq_none_of_not_contains _ hs
    show String.mk (extractL s.data) = String.mk (stripL s.data)
    refine congrArg String.mk ?_
    simp only [extractL, h1]
  · rfl

/-- Witness for C4: each conjunct evaluated at a concrete response
text. -/
theorem claim_C4_witness :
    extract_code_from_response
        (String.mk ("reply: ".data ++ (fenceL ++ (" x = 1 ".data ++ (fenceL ++ " trailing".data))))) =
      String.mk (stripL " x = 1 ".data) ∧
    extract_code_from_response
        (String.mk ("ok ".data ++ (fenceL ++ (pythonL ++ ("\nprint(2)\n".data ++ (fenceL ++ "".data)))))) =
      String.mk (stripL "\nprint(2)\n".data) ∧
    extract_code_from_response " plain text " = String.mk (stripL " plain text ".data) ∧
    extract_code_from_response "" = "" :=
  ⟨claim_C4.1 "reply: ".data " x = 1 ".data " trailing".data
      (by decide) (by decide) (by decide),
   claim_C4.2.1 "ok ".data "\nprint(2)\n".data "".data (by decide) (by decide),
   claim_C4.2.2.1 " plain text " (by decide),
   claim_C4.2.2.2⟩

/-- Claim C5: with no credential configured (absent, or empty which
Python's truthiness check equally rejects), `call_openrouter` returns the
missing-credential diagnostic and performs zero network calls. -/
theorem claim_C5 (env : CliEnv) (prompt : String)
    (h : env.openrouter_key = none ∨ env.openrouter_key = some "") :
    call_openrouter env prompt = (MISSING_KEY_MSG, []) := by
  rcases h with h | h <;> simp [call_openrouter, h]

/-- Witness for C5 at a concrete environment and prompt. -/
theorem claim_C5_witness :
    call_openrouter envNoKey "some prompt" = (MISSING_KEY_MSG, []) :=
  claim_C5 envNoKey "some prompt" (Or.inl rfl)

/-- Counterexample to C6 as stated: a successful completion (200,
nonempty choices) whose content begins with "ERROR:" does not overwrite
the output file with the extracted code — the previous file survives. -/
theorem claim_C6_counterexample :
    completionOk envErrContent "ERROR: fake completion" ∧
    (generate_test_code envErrContent (some "old tests")).1 = some "old tests" ∧
    (generate_test_code envErrContent (some "old tests")).1 ≠
      some (extract_code_from_response (call_openrouter envErrContent GENERATION_PROMPT).1) := by
  refine ⟨⟨"sk-test", ⟨200, "", "", some ["ERROR: fake completion"]⟩, [], rfl, by decide, rfl, rfl, rfl⟩, ?_, ?_⟩
  · decide
  · decide

/-- Claim C6 (amended): on any completion-client failure `generate`
writes nothing, so the previous output file survives; on a successful
completion whose trimmed content does not itself begin with "ERROR:",
the output file is fully overwritten with exactly the extracted code
when the filesystem write succeeds, and a filesystem write failure —
whether at `open` or midway through the truncating write — is reported
as a printed diagnostic without raising past the caller. -/
theorem claim_C6 (env : CliEnv) (fs : Option String) :
    (completionFailed env → (generate_test_code env fs).1 = fs) ∧
    (∀ c, completionOk env c → strStartsWith (pyStrip c) "ERROR:" = false →
      env.fsWrite = WriteOutcome.ok →
      (generate_test_code env fs).1 =
        some (extract_code_from_response (pyStrip c))) ∧
    (∀ c, completionOk env c → strStartsWith (pyStrip c) "ERROR:" = false →
      env.fsWrite ≠ WriteOutcome.ok →
      (generate_test_code env fs).2 =
        ["\n----- Requesting Test Code from the LLM -----\n",
         "ERROR: Could not write to generated_tests.py: " ++ env.fsErrMsg]) := by
  refine ⟨?_, ?_, ?_⟩
  · intro h
    have hE := call_openrouter_failed_marker env GENERATION_PROMPT h
    simp [generate_test_code, hE]
  · rintro c ⟨k, r, cs, hk, hk2, hnet, hst, hch⟩ herr hfs
    simp [generate_test_code, call_openrouter, hk, hk2, hnet, hst, hch, herr, hfs]
  · rintro c ⟨k, r, cs, hk, hk2, hnet, hst, hch⟩ herr hfs
    cases hfw : env.fsWrite with
    | ok => exact absurd hfw hfs
    | failOpen =>
      simp [generate_test_code, call_openrouter, hk, hk2, hnet, hst, hch, herr, hfw]
    | failPartial written =>
      simp [generate_test_code, call_openrouter, hk, hk2, hnet, hst, hch, herr, hfw]

/-- Witness for the amended C6: a failed client leaves the file alone, a
successful one overwrites it with the extracted code, and a write
failing at `open` or midway both print the diagnostic. -/
theorem claim_C6_witness :
    (generate_test_code envNoKey (some "old tests")).1 = some "old tests" ∧
    (generate_test_code envGoodGen (some "old tests")).1 =
      some (extract_code_from_response (pyStrip "```python\nprint(1)\n```")) ∧
    (generate_test_code envBadDisk (some "old tests")).2 =
      ["\n----- Requesting Test Code from the LLM -----\n",
       "ERROR: Could not write to generated_tests.py: disk full"] ∧
    (generate_test_code envTornDisk (some "old tests")).2 =
      ["\n----- Requesting Test Code from the LLM -----\n",
       "ERROR: Could not write to generated_tests.py: disk full"] :=
  ⟨(claim_C6 envNoKey (some "old tests")).1 (Or.inl rfl),
   ((claim_C6 envGoodGen (some "old tests")).2.1 "```python\nprint(1)\n```"
     ⟨"sk-test", ⟨200, "", "", some ["```python\nprint(1)\n```"]⟩, [], rfl, by decide, rfl, rfl, rfl⟩
     (by decide) rfl),
   ((claim_C6 envBadDisk (some "old tests")).2.2 "```python\nprint(1)\n```"
     ⟨"sk-test", ⟨200, "", "", some ["```python\nprint(1)\n```"]⟩, [], rfl, by decide, rfl, rfl, rfl⟩
     (by decide) (by decide)),
   ((claim_C6 envTornDisk (some "old tests")).2.2 "```python\nprint(1)\n```"
     ⟨"sk-test", ⟨200, "", "", some ["```python\nprint(1)\n```"]⟩, [], rfl, by decide, rfl, rfl, rfl⟩
     (by decide) (by decide))⟩

/-- Claim C7: when both runs fail, the report is the four intermediate
artifacts — first run output, feedback response, regeneration output,
second run output — concatenated in exactly that fixed order. -/
theorem claim_C7 (env : ToolEnv)
    (h1 : failedIn (env.run_tool "Run tests") = true)
    (h2 : failedIn (env.run_tool "Run tests again") = true) :
    (safe_run_tests env).1 =
      "Tests still failed after one reflection attempt.\n\n" ++
      "First run output:\n" ++ env.run_tool "Run tests" ++ "\n\n" ++
      "Feedback response:\n" ++
        env.feedback_tool
          ("Some tests failed. Here is the run output:\n\n" ++
           env.run_tool "Run tests" ++
           "\n\nPlease fix these failures and regenerate the tests accordingly.") ++
      "\n\n" ++
      "Regeneration output:\n" ++ env.generate_tool "Regenerate tests after failures" ++
      "\n\n" ++
      "Second run output:\n" ++ env.run_tool "Run tests again" := by
  simp [safe_run_tests, h1, h2]

/-- Witness for C7 at a concrete environment where both runs fail. -/
theorem claim_C7_witness :
    (safe_run_tests envFail).1 =
      "Tests still failed after one reflection attempt.\n\n" ++
      "First run output:\n" ++ envFail.run_tool "Run tests" ++ "\n\n" ++
      "Feedback response:\n" ++
        envFail.feedback_tool
          ("Some tests failed. Here is the run output:\n\n" ++
           envFail.run_tool "Run tests" ++
           "\n\nPlease fix these failures and regenerate the tests accordingly.") ++
      "\n\n" ++
      "Regeneration output:\n" ++ envFail.generate_tool "Regenerate tests after failures" ++
      "\n\n" ++
      "Second run output:\n" ++ envFail.run_tool "Run tests again" :=
  claim_C7 envFail (by decide) (by decide)

/-- Claim C8: the CLI exits 1 with a usage message when no command is
given, when the command is unknown, and when `feedback` has no argument;
`plan`, `generate`, `run`, and `feedback` with an argument exit 0 no
matter how the completion call, the file write, or the test run fare. -/
theorem claim_C8 (argv : List String) (env : CliEnv) (fs : Option String) :
    (argv.length < 2 →
      (main_entry argv env fs).1 = 1 ∧ (main_entry argv env fs).2.2 = usageLines) ∧
    (∀ p a, argv = [p, a] → strLower a = "feedback" →
      (main_entry argv env fs).1 = 1 ∧
      (main_entry argv env fs).2.2 =
        ["Please provide your feedback in quotes, for example:\n  python api_tester.py feedback \"Add a boundary test.\""]) ∧
    (2 ≤ argv.length →
      strLower (argv.getD 1 "") ∉ (["plan", "generate", "run", "feedback"] : List String) →
      (main_entry argv env fs).1 = 1 ∧
      (main_entry argv env fs).2.2 =
        ["Unknown command: " ++ strLower (argv.getD 1 ""),
         "Valid commands: plan, generate, run, feedback"]) ∧
    (2 ≤ argv.length →
      strLower (argv.getD 1 "") ∈ (["plan", "generate", "run"] : List String) →
      (main_entry argv env fs).1 = 0) ∧
    (3 ≤ argv.length → strLower (argv.getD 1 "") = "feedback" →
      (main_entry argv env fs).1 = 0) := by
  refine ⟨?_, ?_, ?_, ?_, ?_⟩
  · intro h
    constructor <;> simp [main_entry, h]
  · rintro p a rfl hlow
    constructor <;> simp [main_entry, hlow]
  · intro hlen hmem
    have h2 : ¬ (argv.length < 2) := by omega
    simp only [List.mem_cons, List.not_mem_nil, or_false, not_or] at hmem
    obtain ⟨n1, n2, n3, n4⟩ := hmem
    simp only [List.getD_eq_getElem?_getD] at n1 n2 n3 n4
    constructor <;> simp [main_entry, h2, n1, n2, n3, n4]
  · intro hlen hmem
    have h2 : ¬ (argv.length < 2) := by omega
    simp only [List.mem_cons, List.not_mem_nil, or_false] at hmem
    rcases hmem with h | h | h <;>
      simp only [List.getD_eq_getElem?_getD] at h <;>
      simp [main_entry, h2, h]
  · intro hlen hfb
    have h2 : ¬ (argv.length < 2) := by omega
    have h3 : ¬ (argv.length < 3) := by omega
    simp only [List.getD_eq_getElem?_getD] at hfb
    simp [main_entry, h2, h3, hfb]

/-- Witness for C8 at concrete command lines, including the printed
usage lines of the three error branches. -/
theorem claim_C8_witness :
    ((main_entry ["api_tester.py"] envNoKey none).1 = 1 ∧
     (main_entry ["api_tester.py"] envNoKey none).2.2 = usageLines) ∧
    ((main_entry ["api_tester.py", "feedback"] envNoKey none).1 = 1 ∧
     (main_entry ["api_tester.py", "feedback"] envNoKey none).2.2 =
       ["Please provide your feedback in quotes, for example:\n  python api_tester.py feedback \"Add a boundary test.\""]) ∧
    ((main_entry ["api_tester.py", "frobnicate"] envNoKey none).1 = 1 ∧
     (main_entry ["api_tester.py", "frobnicate"] envNoKey none).2.2 =
       ["Unknown command: " ++ strLower "frobnicate",
        "Valid commands: plan, generate, run, feedback"]) ∧
    (main_entry ["api_tester.py", "plan"] envNoKey none).1 = 0 ∧
    (main_entry ["api_tester.py", "feedback", "add boundary tests"] envNoKey none).1 = 0 :=
  ⟨(claim_C8 ["api_tester.py"] envNoKey none).1 (by decide),
   (claim_C8 ["api_tester.py", "feedback"] envNoKey none).2.1
     "api_tester.py" "feedback" rfl (by decide),
   (claim_C8 ["api_tester.py", "frobnicate"] envNoKey none).2.2.1
     (by decide) (by decide),
   (claim_C8 ["api_tester.py", "plan"] envNoKey none).2.2.2.1
     (by decide) (by decide),
   (claim_C8 ["api_tester.py", "feedback", "add boundary tests"] envNoKey none).2.2.2.2
     (by decide) (by decide)⟩

/-- Claim C9: `generate_test_code` classifies failure solely by the
"ERROR:" prefix of the returned text, so a successful completion whose
content begins with "ERROR:" after trimming aborts generation without
writing the output file, exactly like a client failure. -/
theorem claim_C9 (env : CliEnv) (fs : Option String) (k : String)
    (r : LlmHttpResponse) (c : String) (cs : List String)
    (hk : env.openrouter_key = some k) (hk2 : k ≠ "")
    (hnet : env.net = Except.ok r) (hst : r.status = 200)
    (hch : r.choices = some (c :: cs))
    (herr : strStartsWith (pyStrip c) "ERROR:" = true) :
    generate_test_code env fs =
      (fs, ["\n----- Requesting Test Code from the LLM -----\n", pyStrip c,
            "\nGeneration aborted."]) := by
  simp [generate_test_code, call_openrouter, hk, hk2, hnet, hst, hch, herr]

/-- Witness for C9: a 200 response whose content is an "ERROR:" string
leaves a previously generated file untouched. -/
theorem claim_C9_witness :
    generate_test_code envErrContent (some "previous tests") =
      (some "previous tests",
       ["\n----- Requesting Test Code from the LLM -----\n",
        pyStrip "ERROR: fake completion", "\nGeneration aborted."]) :=
  claim_C9 envErrContent (some "previous tests") "sk-test"
    ⟨200, "", "", some ["ERROR: fake completion"]⟩ "ERROR: fake completion" []
    rfl (by decide) rfl rfl rfl (by decide)

/-- Claim C10: the extractor is idempotent — a first-block interior
never holds a complete fence pair, and the no-match fallback is already
trimmed, so a second application changes nothing. -/
theorem claim_C10 (s : String) :
    extract_code_from_response (extract_code_from_response s) =
      extract_code_from_response s := by
  show extract_code_from_response (String.mk (extractL s.data)) = String.mk (extractL s.data)
  show String.mk (extractL (extractL s.data)) = String.mk (extractL s.data)
  refine congrArg String.mk ?_
  generalize s.data = l
  cases h : findMatch l with
  | some content =>
    have hi : extractL l = stripL content := by simp only [extractL, h]
    have hnf : containsSub fenceL content = false := findMatch_content_no_fence l content h
    have hnf2 : containsSub fenceL (stripL content) = false := by
      by_contra hc
      rw [Bool.not_eq_false] at hc
      obtain ⟨u, v, hdec⟩ := stripL_decomp content
      rw [containsSub_of_middle fenceL (stripL content) u v content hc hdec] at hnf
      exact absurd hnf (by simp)
    have h2 : findMatch (stripL content) = none :=
      findMatch_eq_none_of_not_contains _ hnf2
    rw [hi]
    have ho : extractL (stripL content) = stripL (stripL content) := by
      simp only [extractL, h2]
    rw [ho]
    exact stripL_stripL content
  | none =>
    have hi : extractL l = stripL l := by simp only [extractL, h]
    have hn2 : findMatch (stripL l) = none := by
      cases h2 : findMatch (stripL l) with
      | none => rfl
      | some c2 =>
        have hsome : (findMatch (stripL l)).isSome = true := by rw [h2]; rfl
        have htwo := findMatch_isSome_two _ hsome
        obtain ⟨u, v, hdec⟩ := stripL_decomp l
        have htwo2 : hasTwoFences l := by
          obtain ⟨x, y, z, hx⟩ := htwo
          refine ⟨u ++ x, y, z ++ v, ?_⟩
          rw [hdec, hx]
          simp
        have hcontra := two_findMatch_isSome l htwo2
        rw [h] at hcontra
        exact absurd hcontra (by simp)
    rw [hi]
    have ho : extractL (stripL l) = stripL (stripL l) := by
      simp only [extractL, hn2]
    rw [ho]
    exact stripL_stripL l
